import Mathlib

/-!
Shallow embedding of the gen-email repository (streamlit_app.py and
streamlit_app_not_working.py), covering the Prompt Builder and Model Client
logic: template formatting, the Gemini call wrappers with their error
handling, conversation-handle management, and the credential check in main.
-/

namespace GenEmail

/-- Exceptions of the Python code relevant here: the Gemini
`StopCandidateException` (the only exception `generate_email` catches), the
`KeyError` raised by `str.format` on a missing placeholder key, and any other
exception raised by the remote boundary. -/
inductive PyExn where
  | stopCandidate (msg : String)
  | keyError (key : String)
  | other (msg : String)
deriving DecidableEq, Repr

/-- Whether an exception is the Gemini `StopCandidateException`, the one class
that the `except` on streamlit_app.py line 59 catches. -/
def PyExn.isStopCandidate : PyExn → Bool
  | .stopCandidate _ => true
  | _ => false

/-- Outcome of a Python call as seen by its caller: a normal return value or a
propagating exception. -/
inductive PyResult (α : Type) where
  | ok (v : α)
  | exn (e : PyExn)
deriving DecidableEq, Repr

/-- Whether a call returned normally. -/
def PyResult.isOk {α : Type} : PyResult α → Bool
  | .ok _ => true
  | .exn _ => false

/-- A candidate of a Gemini response carrying its finish reason; the code
compares `response.candidates[0].finish_reason` against the string
"RECITATION" (streamlit_app.py line 54). -/
structure Candidate where
  finishReason : String
deriving DecidableEq, Repr

/-- A Gemini response: its candidate list and its textual payload
(`response.text`).  For a recitation-stopped response the payload is the
rejected partial text, which generate_email deliberately avoids returning. -/
structure Response where
  candidates : List Candidate
  text : String
deriving DecidableEq, Repr

/-- Behaviour of the remote boundary for one `send_message` call, supplied as
an oracle: either a response object comes back or an exception is raised. -/
inductive SendOutcome where
  | respond (r : Response)
  | raise (e : PyExn)
deriving DecidableEq, Repr

/-- A conversation handle (`ChatSession`): the ordered history of exchanged
messages. -/
structure Chat where
  history : List String
deriving DecidableEq, Repr

/-- Generation configuration fixed at construction
(streamlit_app.py lines 13-19); immutable thereafter. -/
structure GenerationConfig where
  temperature : Rat
  topP : Rat
  topK : Nat
  maxOutputTokens : Nat
  responseMimeType : String
deriving DecidableEq, Repr

/-- The literal configuration dict of streamlit_app.py lines 13-19. -/
def defaultGenerationConfig : GenerationConfig :=
  ⟨mkRat 7 10, mkRat 95 100, 40, 8192, "text/plain"⟩

/-- The `genai.GenerativeModel` value built at construction
(streamlit_app.py lines 22-25). -/
structure GenerativeModel where
  modelName : String
  generationConfig : GenerationConfig
deriving DecidableEq, Repr

/-- `model.start_chat(history=...)`: opens a conversation handle seeded with
the given history. -/
def GenerativeModel.start_chat (_m : GenerativeModel) (history : List String) : Chat :=
  ⟨history⟩

/-- `chat.send_message(prompt)` under a given boundary outcome: on a response
the exchange is appended to the handle's history; on an exception the handle
is unchanged and the exception propagates. -/
def Chat.send_message (c : Chat) (prompt : String) (out : SendOutcome) :
    PyResult (Response × Chat) :=
  match out with
  | .respond r => .ok (r, ⟨c.history ++ [prompt, r.text]⟩)
  | .raise e => .exn e

/-- The `GeminiInterface` instance state of streamlit_app.py: its `__init__`
(lines 8-25) stores the generation configuration and the model, and performs
no validation of the api key (it only forwards it to `genai.configure`).
Note it stores no conversation handle. -/
structure GeminiInterface where
  apiKey : String
  generationConfig : GenerationConfig
  model : GenerativeModel
deriving DecidableEq, Repr

/-- `GeminiInterface.__init__(api_key, model_name)`: total, never fails,
regardless of the credential value. -/
def GeminiInterface.init (apiKey modelName : String) : GeminiInterface :=
  ⟨apiKey, defaultGenerationConfig, ⟨modelName, defaultGenerationConfig⟩⟩

/-- One part of a Python format template: a literal segment or a `{name}`
placeholder. -/
inductive TemplatePart where
  | lit (s : String)
  | field (name : String)
deriving DecidableEq, Repr

/-- The structured prompt data: a finite mapping from field name to
user-supplied text (the `prompt_data` dict). -/
abbrev PromptData := List (String × String)

/-- The placeholder names appearing in a template, in order. -/
def templateFieldNames (parts : List TemplatePart) : List String :=
  parts.filterMap fun p =>
    match p with
    | .lit _ => none
    | .field k => some k

/-- `template.format(**data)` for a template of simple named placeholders:
literals are emitted verbatim, each placeholder is replaced by the value bound
to its name, and a `KeyError` is raised at the first placeholder whose name is
not a key of the mapping. -/
def formatTemplate (parts : List TemplatePart) (d : PromptData) : PyResult String :=
  match parts with
  | [] => .ok ""
  | .lit s :: rest =>
      match formatTemplate rest d with
      | .ok t => .ok (s ++ t)
      | .exn e => .exn e
  | .field k :: rest =>
      match d.lookup k with
      | none => .exn (.keyError k)
      | some v =>
          match formatTemplate rest d with
          | .ok t => .ok (v ++ t)
          | .exn e => .exn e

/-- Total rendering of a template: missing or empty fields render as empty
segments, literals keep their fixed positions and order. -/
def renderParts (parts : List TemplatePart) (d : PromptData) : String :=
  match parts with
  | [] => ""
  | .lit s :: rest => s ++ renderParts rest d
  | .field k :: rest => ((d.lookup k).getD "") ++ renderParts rest d

/-- The email prompt template of streamlit_app.py lines 31-47, byte for byte,
split at its ten placeholders. -/
def promptTemplate : List TemplatePart :=
  [ .lit "Compose an email with the following characteristics:\n\n        *   **Purpose:** ",
    .field "purpose",
    .lit "\n        *   **Recipient:** ",
    .field "recipient_info",
    .lit "\n        *   **Sender:** ",
    .field "sender_name",
    .lit "\n        *   **Tone:** ",
    .field "tone",
    .lit "\n        *   **Subject:** ",
    .field "subject",
    .lit "\n        *   **Key Points/Content:**\n            ",
    .field "key_points",
    .lit "\n        *   **Optional Considerations (when applicable):**\n            *   **Context:** ",
    .field "context",
    .lit "\n            *   **Actions Required:** ",
    .field "actions",
    .lit "\n            *   **Attachments:** ",
    .field "attachments",
    .lit "\n            *   **Desired Length:** ",
    .field "length",
    .lit "\n\n        Write the email including this information, with an appropriate greeting and closing, considering the desired tone. \n        " ]

/-- Trace of one `generate_email` call: the handle created at line 51 (none
when `.format` raised before reaching it), that handle's state after the
exchange (none when no response came back), and the Python return value. -/
structure EmailCallTrace where
  chatCreated : Option Chat
  chatFinal : Option Chat
  result : PyResult (Option String)
deriving DecidableEq, Repr

/-- `GeminiInterface.generate_email(prompt_data)` (streamlit_app.py lines
27-61), instrumented to also expose the conversation handle it uses.  It
formats the template (KeyError propagates), starts a new chat with empty
history (line 51), sends the prompt, returns None when the first candidate
finished with "RECITATION" or when a `StopCandidateException` was raised, and
returns `response.text` otherwise; any other exception propagates. -/
def GeminiInterface.generate_email_traced (g : GeminiInterface) (d : PromptData)
    (out : SendOutcome) : EmailCallTrace :=
  match formatTemplate promptTemplate d with
  | .exn e => ⟨none, none, .exn e⟩
  | .ok finalPrompt =>
    let chat := g.model.start_chat []
    match chat.send_message finalPrompt out with
    | .exn (.stopCandidate _) => ⟨some chat, none, .ok none⟩
    | .exn e => ⟨some chat, none, .exn e⟩
    | .ok (response, chatAfter) =>
      match response.candidates with
      | c :: _ =>
        if c.finishReason = "RECITATION" then ⟨some chat, some chatAfter, .ok none⟩
        else ⟨some chat, some chatAfter, .ok (some response.text)⟩
      | [] => ⟨some chat, some chatAfter, .ok (some response.text)⟩

/-- The Python return value of `generate_email`. -/
def GeminiInterface.generate_email (g : GeminiInterface) (d : PromptData)
    (out : SendOutcome) : PyResult (Option String) :=
  (g.generate_email_traced d out).result

/-- The f-string instruction built by `paraphrase_text`
(streamlit_app.py line 68). -/
def paraphrasePrompt (text tone : String) : String :=
  "Paraphrase the following text with a '" ++ tone ++
    "' tone and return it in Markdown format:\n\n" ++ text

/-- Trace of one `paraphrase_text` call: the handle it creates, the handle
after the exchange, and the Python return value. -/
structure ParaphraseCallTrace where
  chatCreated : Chat
  chatFinal : Option Chat
  result : PyResult String
deriving DecidableEq, Repr

/-- `GeminiInterface.paraphrase_text(text, tone)` (streamlit_app.py lines
63-70): starts a new chat with empty history, sends the instruction, and
returns `response.text` unconditionally — there is no recitation check and no
exception handler here. -/
def GeminiInterface.paraphrase_text_traced (g : GeminiInterface) (text tone : String)
    (out : SendOutcome) : ParaphraseCallTrace :=
  let chat := g.model.start_chat []
  match chat.send_message (paraphrasePrompt text tone) out with
  | .exn e => ⟨chat, none, .exn e⟩
  | .ok (response, chatAfter) => ⟨chat, some chatAfter, .ok response.text⟩

/-- The Python return value of `paraphrase_text`. -/
def GeminiInterface.paraphrase_text (g : GeminiInterface) (text tone : String)
    (out : SendOutcome) : PyResult String :=
  (g.paraphrase_text_traced text tone out).result

/-- Python `str.strip()` with no argument: remove leading and trailing
whitespace. -/
def pyStrip (s : String) : String :=
  ⟨(s.data.dropWhile Char.isWhitespace).reverse.dropWhile Char.isWhitespace |>.reverse⟩

/-- `selected_tone = custom_tone.strip() if custom_tone.strip() else tone`
(streamlit_app.py line 176): Python truthiness of a string is non-emptiness,
so the stripped custom tone is used when it is non-empty, else the enumerated
tone. -/
def selectedTone (customTone tone : String) : String :=
  if pyStrip customTone ≠ "" then pyStrip customTone else tone

/-- The fixed tone choices offered by the paraphraser tab
(streamlit_app.py lines 160-163). -/
def predefinedTones : List String :=
  ["neutral", "fluent", "academic", "natural", "formal",
   "simple", "creative", "expand", "shorten"]

/-- Outcome of main's startup path (streamlit_app.py lines 99-106): either the
missing-credential error is reported and main returns before constructing the
client, or the client is constructed. -/
inductive StartupOutcome where
  | configError (msg : String)
  | started (client : GeminiInterface)
deriving DecidableEq, Repr

/-- `os.environ.get("GEMINI_API_KEY", "")` followed by `if not api_key: ...
return` and `GeminiInterface(api_key)`: the credential check happens here,
in the caller, once, before construction. -/
def mainStartup (env : List (String × String)) : StartupOutcome :=
  let apiKey := (env.lookup "GEMINI_API_KEY").getD ""
  if apiKey = "" then
    .configError "API key not found in environment variables! Set GEMINI_API_KEY."
  else
    .started (GeminiInterface.init apiKey "gemini-2.0-flash-exp")

/-- `haystack` contains `needle` as a contiguous substring. -/
def strContains (haystack needle : String) : Prop :=
  ∃ a b, haystack = a ++ needle ++ b

/-! The streamlit_app_not_working.py variant of the client, which does keep a
lazily created chat session on the instance. -/

/-- Generation configuration of streamlit_app_not_working.py lines 11-16 (no
response mime type there). -/
structure GenerationConfigNW where
  temperature : Rat
  topP : Rat
  topK : Nat
  maxOutputTokens : Nat
deriving DecidableEq, Repr

/-- The literal configuration dict of streamlit_app_not_working.py. -/
def defaultGenerationConfigNW : GenerationConfigNW :=
  ⟨mkRat 7 10, mkRat 95 100, 40, 8192⟩

/-- The chat session of streamlit_app_not_working.py: opened with a system
message and accumulating the exchanged messages. -/
structure ChatNW where
  systemMessage : String
  history : List String
deriving DecidableEq, Repr

/-- Outcome of one `send_message` on the variant's session: the response dict
content, or a raised exception. -/
inductive NWOutcome where
  | respond (content : String)
  | raise (e : PyExn)
deriving DecidableEq, Repr

/-- The `GeminiInterface` of streamlit_app_not_working.py: its `__init__`
(lines 7-16) sets `chat_session = None` and the configuration. -/
structure GeminiInterfaceNW where
  chatSession : Option ChatNW
  generationConfig : GenerationConfigNW
deriving DecidableEq, Repr

/-- `GeminiInterface.__init__` of the variant. -/
def GeminiInterfaceNW.init : GeminiInterfaceNW :=
  ⟨none, defaultGenerationConfigNW⟩

/-- `start_chat(system_instruction)` (variant lines 18-26): replaces the
instance's session by a fresh one with empty history. -/
def GeminiInterfaceNW.start_chat (g : GeminiInterfaceNW) (sys : String) : GeminiInterfaceNW :=
  ⟨some ⟨sys, []⟩, g.generationConfig⟩

/-- `chat_message(user_message)` (variant lines 28-35): raises a ValueError
when no session exists, otherwise sends on the stored session, appending the
exchange to its history, and returns `response["content"]`. -/
def GeminiInterfaceNW.chat_message (g : GeminiInterfaceNW) (msg : String)
    (out : NWOutcome) : GeminiInterfaceNW × PyResult String :=
  match g.chatSession with
  | none => (g, .exn (.other "Chat session has not been started."))
  | some s =>
    match out with
    | .respond content =>
        (⟨some ⟨s.systemMessage, s.history ++ [msg, content]⟩, g.generationConfig⟩,
         .ok content)
    | .raise e => (g, .exn e)

/-- The system instruction of the variant's `generate_email` (lines 41-43). -/
def emailSystemInstruction : String :=
  "You are an expert email writer. Create professional, concise, and well-structured emails."

/-- `generate_email(email_prompt)` of streamlit_app_not_working.py lines
37-46: starts a session only when none exists, then sends on the stored
session. -/
def GeminiInterfaceNW.generate_email (g : GeminiInterfaceNW) (emailPrompt : String)
    (out : NWOutcome) : GeminiInterfaceNW × PyResult String :=
  let g1 := if g.chatSession.isSome then g else g.start_chat emailSystemInstruction
  g1.chat_message emailPrompt out

/-- The six fields the form requires before a generation is triggered
(streamlit_app.py line 127 and the labels of lines 33-39). -/
def requiredEmailFields : List String :=
  ["purpose", "recipient_info", "sender_name", "tone", "subject", "key_points"]

/-- The example request of the specification: the six required fields filled,
the optional ones blank. -/
def sampleData : PromptData :=
  [("purpose", "schedule a meeting"), ("recipient_info", "John Doe"),
   ("sender_name", "Jane Doe"), ("tone", "polite"), ("subject", "Meeting Request"),
   ("key_points", "confirm availability"), ("context", ""), ("actions", ""),
   ("attachments", ""), ("length", "")]

/-- `sampleData` with its entries reordered and an extra key the template
never mentions. -/
def sampleDataExtra : PromptData :=
  [("recipient_info", "John Doe"), ("purpose", "schedule a meeting"),
   ("sender_name", "Jane Doe"), ("tone", "polite"), ("subject", "Meeting Request"),
   ("key_points", "confirm availability"), ("context", ""), ("actions", ""),
   ("attachments", ""), ("length", ""), ("unused_extra_key", "ignored")]

/-! Helper lemmas about the template formatter. -/

theorem templateFieldNames_cons_lit (s : String) (rest : List TemplatePart) :
    templateFieldNames (.lit s :: rest) = templateFieldNames rest := rfl

theorem templateFieldNames_cons_field (k : String) (rest : List TemplatePart) :
    templateFieldNames (.field k :: rest) = k :: templateFieldNames rest := rfl

theorem formatTemplate_ext (parts : List TemplatePart) (d₁ d₂ : PromptData)
    (h : ∀ k ∈ templateFieldNames parts, d₁.lookup k = d₂.lookup k) :
    formatTemplate parts d₁ = formatTemplate parts d₂ := by
  induction parts with
  | nil => rfl
  | cons p rest ih =>
    cases p with
    | lit s =>
      rw [templateFieldNames_cons_lit] at h
      simp only [formatTemplate, ih h]
    | field k =>
      rw [templateFieldNames_cons_field] at h
      have hk : d₁.lookup k = d₂.lookup k := h k (List.mem_cons_self _ _)
      have hr : ∀ k2 ∈ templateFieldNames rest, d₁.lookup k2 = d₂.lookup k2 :=
        fun k2 hk2 => h k2 (List.mem_cons_of_mem _ hk2)
      simp only [formatTemplate, hk, ih hr]

theorem formatTemplate_ok (parts : List TemplatePart) (d : PromptData)
    (h : ∀ k ∈ templateFieldNames parts, (d.lookup k).isSome = true) :
    formatTemplate parts d = .ok (renderParts parts d) := by
  induction parts with
  | nil => rfl
  | cons p rest ih =>
    cases p with
    | lit s =>
      rw [templateFieldNames_cons_lit] at h
      simp only [formatTemplate, renderParts, ih h]
    | field k =>
      rw [templateFieldNames_cons_field] at h
      obtain ⟨v, hv⟩ := Option.isSome_iff_exists.mp (h k (List.mem_cons_self _ _))
      have hr : ∀ k2 ∈ templateFieldNames rest, (d.lookup k2).isSome = true :=
        fun k2 hk2 => h k2 (List.mem_cons_of_mem _ hk2)
      simp only [formatTemplate, renderParts, hv, ih hr, Option.getD_some]

theorem formatTemplate_not_ok_iff (parts : List TemplatePart) (d : PromptData) :
    (formatTemplate parts d).isOk = false ↔
      ∃ k ∈ templateFieldNames parts, d.lookup k = none := by
  induction parts with
  | nil => simp [formatTemplate, PyResult.isOk, templateFieldNames]
  | cons p rest ih =>
    cases p with
    | lit s =>
      rw [templateFieldNames_cons_lit, ← ih]
      cases hres : formatTemplate rest d <;>
        simp [formatTemplate, hres, PyResult.isOk]
    | field k =>
      rw [templateFieldNames_cons_field]
      cases hk : d.lookup k with
      | none =>
        constructor
        · intro _; exact ⟨k, List.mem_cons_self _ _, hk⟩
        · intro _; simp [formatTemplate, hk, PyResult.isOk]
      | some v =>
        have heq : formatTemplate (TemplatePart.field k :: rest) d =
            match formatTemplate rest d with
            | .ok t => .ok (v ++ t)
            | .exn e2 => .exn e2 := by
          simp [formatTemplate, hk]
        cases hres : formatTemplate rest d with
        | ok t =>
          rw [heq, hres]
          constructor
          · intro hfalse; exact Bool.noConfusion hfalse
          · rintro ⟨k2, hk2mem, hk2⟩
            rcases List.mem_cons.mp hk2mem with rfl | hk2mem
            · rw [hk] at hk2; exact Option.noConfusion hk2
            · have hfal := ih.mpr ⟨k2, hk2mem, hk2⟩
              rw [hres] at hfal
              exact Bool.noConfusion hfal
        | exn e =>
          rw [heq, hres]
          constructor
          · intro _
            obtain ⟨k2, hk2mem, hk2⟩ := ih.mp (by rw [hres]; rfl)
            exact ⟨k2, List.mem_cons_of_mem _ hk2mem, hk2⟩
          · intro _; rfl

theorem formatTemplate_exn (parts : List TemplatePart) (d : PromptData) (e : PyExn)
    (h : formatTemplate parts d = .exn e) :
    ∃ k, e = .keyError k ∧ k ∈ templateFieldNames parts ∧ d.lookup k = none := by
  induction parts with
  | nil => cases h
  | cons p rest ih =>
    cases p with
    | lit s =>
      rw [templateFieldNames_cons_lit]
      cases hres : formatTemplate rest d with
      | ok t => rw [formatTemplate, hres] at h; cases h
      | exn e2 =>
        rw [formatTemplate, hres] at h
        injection h with he; subst he
        exact ih hres
    | field k =>
      rw [templateFieldNames_cons_field]
      cases hk : d.lookup k with
      | none =>
        rw [formatTemplate, hk] at h
        injection h with he; subst he
        exact ⟨k, rfl, List.mem_cons_self _ _, hk⟩
      | some v =>
        cases hres : formatTemplate rest d with
        | ok t => rw [formatTemplate, hk, hres] at h; cases h
        | exn e2 =>
          rw [formatTemplate, hk, hres] at h
          injection h with he; subst he
          obtain ⟨k2, he2, hmem, hlk⟩ := ih hres
          exact ⟨k2, he2, List.mem_cons_of_mem _ hmem, hlk⟩

/-! Helper lemmas about substring containment. -/

theorem strContains_prepend (t s n : String) (h : strContains s n) :
    strContains (t ++ s) n := by
  obtain ⟨a, b, rfl⟩ := h
  exact ⟨t ++ a, b, by simp [String.append_assoc]⟩

theorem renderParts_contains_field (parts : List TemplatePart) (d : PromptData)
    (k : String) (h : TemplatePart.field k ∈ parts) :
    strContains (renderParts parts d) ((d.lookup k).getD "") := by
  induction parts with
  | nil => cases h
  | cons p rest ih =>
    rcases List.mem_cons.mp h with hp | hp
    · rw [← hp]
      exact ⟨"", renderParts rest d, by simp [renderParts]⟩
    · cases p with
      | lit s => exact strContains_prepend _ _ _ (ih hp)
      | field k2 => exact strContains_prepend _ _ _ (ih hp)

theorem paraphrasePrompt_contains_text (text tone : String) :
    strContains (paraphrasePrompt text tone) text :=
  ⟨"Paraphrase the following text with a '" ++ tone ++
      "' tone and return it in Markdown format:\n\n",
   "", by simp [paraphrasePrompt, String.append_assoc]⟩

theorem paraphrasePrompt_contains_tone (text tone : String) :
    strContains (paraphrasePrompt text tone) ("'" ++ tone ++ "'") := by
  refine ⟨"Paraphrase the following text with a ",
    " tone and return it in Markdown format:\n\n" ++ text, ?_⟩
  have h1 : ("Paraphrase the following text with a " : String) ++ "'" =
      "Paraphrase the following text with a '" := by decide
  have h2 : ("'" : String) ++ " tone and return it in Markdown format:\n\n" =
      "' tone and return it in Markdown format:\n\n" := by decide
  simp only [paraphrasePrompt]
  rw [← h1, ← h2]
  simp only [String.append_assoc]

theorem paraphrasePrompt_contains_markdown (text tone : String) :
    strContains (paraphrasePrompt text tone) "return it in Markdown format" := by
  refine ⟨"Paraphrase the following text with a '" ++ tone ++ "' tone and ",
    ":\n\n" ++ text, ?_⟩
  have h1 : ("' tone and " : String) ++ "return it in Markdown format" ++ ":\n\n" =
      "' tone and return it in Markdown format:\n\n" := by decide
  simp only [paraphrasePrompt]
  rw [← h1]
  simp only [String.append_assoc]

/-- Every conversation handle `generate_email` ever creates has empty
history: line 51 passes `history=[]` unconditionally. -/
theorem generate_email_chatCreated_empty (g : GeminiInterface) (d : PromptData)
    (out : SendOutcome) (c : Chat)
    (h : (g.generate_email_traced d out).chatCreated = some c) : c.history = [] := by
  unfold GeminiInterface.generate_email_traced at h
  cases hfmt : formatTemplate promptTemplate d with
  | exn e => rw [hfmt] at h; simp at h
  | ok p =>
    rw [hfmt] at h
    cases out with
    | raise e =>
      cases e <;> simp only [GenerativeModel.start_chat, Chat.send_message] at h <;>
        (injection h with h2; rw [← h2])
    | respond r =>
      simp only [GenerativeModel.start_chat, Chat.send_message] at h
      cases hr : r.candidates with
      | nil =>
        rw [hr] at h
        simp at h
        rw [← h]
      | cons cand cs =>
        rw [hr] at h
        by_cases hfr : cand.finishReason = "RECITATION"
        · simp only [hfr, if_pos] at h
          simp at h
          rw [← h]
        · simp only [hfr, if_neg] at h
          simp at h
          rw [← h]

/-! Result-computation lemmas for the two client operations. -/

theorem generate_email_result_recitation (g : GeminiInterface) (d : PromptData)
    (hok : ∀ k ∈ templateFieldNames promptTemplate, (d.lookup k).isSome = true)
    (r : Response) (cand : Candidate) (cs : List Candidate)
    (hc : r.candidates = cand :: cs) (hf : cand.finishReason = "RECITATION") :
    g.generate_email d (.respond r) = .ok none := by
  unfold GeminiInterface.generate_email GeminiInterface.generate_email_traced
  rw [formatTemplate_ok promptTemplate d hok]
  simp [GenerativeModel.start_chat, Chat.send_message, hc, hf]

theorem generate_email_result_stop (g : GeminiInterface) (d : PromptData)
    (hok : ∀ k ∈ templateFieldNames promptTemplate, (d.lookup k).isSome = true)
    (m : String) :
    g.generate_email d (.raise (.stopCandidate m)) = .ok none := by
  unfold GeminiInterface.generate_email GeminiInterface.generate_email_traced
  rw [formatTemplate_ok promptTemplate d hok]
  simp [GenerativeModel.start_chat, Chat.send_message]

theorem generate_email_result_raise (g : GeminiInterface) (d : PromptData)
    (hok : ∀ k ∈ templateFieldNames promptTemplate, (d.lookup k).isSome = true)
    (e : PyExn) (he : e.isStopCandidate = false) :
    g.generate_email d (.raise e) = .exn e := by
  unfold GeminiInterface.generate_email GeminiInterface.generate_email_traced
  rw [formatTemplate_ok promptTemplate d hok]
  cases e with
  | stopCandidate m => simp [PyExn.isStopCandidate] at he
  | keyError k => simp [GenerativeModel.start_chat, Chat.send_message]
  | other m => simp [GenerativeModel.start_chat, Chat.send_message]

theorem paraphrase_result_respond (g : GeminiInterface) (text tone : String)
    (r : Response) :
    g.paraphrase_text text tone (.respond r) = .ok r.text := rfl

theorem paraphrase_result_raise (g : GeminiInterface) (text tone : String)
    (e : PyExn) :
    g.paraphrase_text text tone (.raise e) = .exn e := rfl

/-! Claim theorems. -/

/-- C1, counterexample: the claim covers every operation, but
`paraphrase_text` has no recitation handling: on a recitation-flagged
response it returns the rejected partial text itself instead of a
RecitationBlocked failure marker. -/
theorem C1_counterexample :
    (GeminiInterface.init "key" "gemini-2.0-flash-exp").paraphrase_text
        "The project is late." "formal"
        (.respond ⟨[⟨"RECITATION"⟩], "REJECTED PARTIAL"⟩)
      = .ok "REJECTED PARTIAL" := by decide

/-- C1, amended: `generate_email` returns the typed None failure marker on a
recitation-flagged response — no fault is raised and the rejected partial
text is not returned — while `paraphrase_text` performs no recitation
handling and returns the response payload unconditionally. -/
theorem C1_amended_policy_rejection (g : GeminiInterface) (d : PromptData)
    (hok : ∀ k ∈ templateFieldNames promptTemplate, (d.lookup k).isSome = true)
    (r : Response) (cand : Candidate) (cs : List Candidate)
    (hc : r.candidates = cand :: cs) (hf : cand.finishReason = "RECITATION")
    (text tone : String) :
    g.generate_email d (.respond r) = .ok none ∧
    g.generate_email d (.respond r) ≠ .ok (some r.text) ∧
    g.paraphrase_text text tone (.respond r) = .ok r.text := by
  have h1 := generate_email_result_recitation g d hok r cand cs hc hf
  refine ⟨h1, ?_, paraphrase_result_respond g text tone r⟩
  rw [h1]
  simp

/-- Witness for the amended C1 theorem at the spec's example inputs. -/
theorem C1_witness :
    (GeminiInterface.init "key" "gemini-2.0-flash-exp").generate_email sampleData
        (.respond ⟨[⟨"RECITATION"⟩], "REJECTED PARTIAL"⟩) = .ok none ∧
    (GeminiInterface.init "key" "gemini-2.0-flash-exp").generate_email sampleData
        (.respond ⟨[⟨"RECITATION"⟩], "REJECTED PARTIAL"⟩) ≠ .ok (some "REJECTED PARTIAL") ∧
    (GeminiInterface.init "key" "gemini-2.0-flash-exp").paraphrase_text
        "The project is late." "formal"
        (.respond ⟨[⟨"RECITATION"⟩], "REJECTED PARTIAL"⟩) = .ok "REJECTED PARTIAL" :=
  C1_amended_policy_rejection (GeminiInterface.init "key" "gemini-2.0-flash-exp")
    sampleData (by decide) ⟨[⟨"RECITATION"⟩], "REJECTED PARTIAL"⟩ ⟨"RECITATION"⟩ []
    rfl rfl "The project is late." "formal"

/-- C2: for both operations, any exception from the remote boundary other
than the content-policy rejection class (`StopCandidateException`, which the
code folds into the recitation failure marker) is propagated to the caller as
the failure outcome carrying exactly the underlying exception — it is not
swallowed. -/
theorem C2_transport_failure_propagates (g : GeminiInterface) (d : PromptData)
    (hok : ∀ k ∈ templateFieldNames promptTemplate, (d.lookup k).isSome = true)
    (text tone : String) (e : PyExn) (he : e.isStopCandidate = false) :
    g.generate_email d (.raise e) = .exn e ∧
    g.paraphrase_text text tone (.raise e) = .exn e :=
  ⟨generate_email_result_raise g d hok e he, paraphrase_result_raise g text tone e⟩

/-- Witness for C2 at a concrete transport exception. -/
theorem C2_witness :
    (GeminiInterface.init "key" "gemini-2.0-flash-exp").generate_email sampleData
        (.raise (.other "ConnectionError")) = .exn (.other "ConnectionError") ∧
    (GeminiInterface.init "key" "gemini-2.0-flash-exp").paraphrase_text
        "The project is late." "formal" (.raise (.other "ConnectionError"))
      = .exn (.other "ConnectionError") :=
  C2_transport_failure_propagates (GeminiInterface.init "key" "gemini-2.0-flash-exp")
    sampleData (by decide) "The project is late." "formal" (.other "ConnectionError") rfl

/-- C3, counterexample: in streamlit_app.py a successful call leaves its
handle holding the exchange, yet the handle created by any (hence by the
next) call is again the empty one — the subsequent call does not reuse the
previous call's handle, refuting the claimed ChatStarted self-loop reuse.
(The client instance is immutable across calls: `generate_email` assigns no
attribute, so the second call runs on an identical instance.) -/
theorem C3_counterexample :
    ((GeminiInterface.init "key" "gemini-2.0-flash-exp").generate_email_traced sampleData
        (.respond ⟨[⟨"STOP"⟩], "Dear John, confirming availability."⟩)).chatCreated
      = some ⟨[]⟩ ∧
    ((GeminiInterface.init "key" "gemini-2.0-flash-exp").generate_email_traced sampleData
        (.respond ⟨[⟨"STOP"⟩], "Dear John, confirming availability."⟩)).chatFinal ≠ none ∧
    ((GeminiInterface.init "key" "gemini-2.0-flash-exp").generate_email_traced sampleData
        (.respond ⟨[⟨"STOP"⟩], "Dear John, confirming availability."⟩)).chatFinal ≠
      ((GeminiInterface.init "key" "gemini-2.0-flash-exp").generate_email_traced sampleData
        (.respond ⟨[⟨"STOP"⟩], "Dear John, confirming availability."⟩)).chatCreated := by
  decide

/-- C3, amended: in streamlit_app.py every generation call creates a fresh
conversation handle with empty history and never reuses a prior one; in the
streamlit_app_not_working.py variant the claimed lazy pattern does hold: a
call with a live session reuses it (same system message, history only
extended), and a call without one creates the single session. -/
theorem C3_amended_session_handling :
    (∀ (g : GeminiInterface) (d : PromptData) (out : SendOutcome) (c : Chat),
        (g.generate_email_traced d out).chatCreated = some c → c.history = []) ∧
    (∀ (g : GeminiInterfaceNW) (s : ChatNW) (p : String) (out : NWOutcome),
        g.chatSession = some s →
          ∃ s2, (g.generate_email p out).1.chatSession = some s2 ∧
            s2.systemMessage = s.systemMessage ∧
            ∃ t, s2.history = s.history ++ t) ∧
    (∀ (g : GeminiInterfaceNW) (p : String) (out : NWOutcome),
        g.chatSession = none →
          ∃ s2, (g.generate_email p out).1.chatSession = some s2 ∧
            s2.systemMessage = emailSystemInstruction) := by
  refine ⟨fun g d out c h => generate_email_chatCreated_empty g d out c h, ?_, ?_⟩
  · intro g s p out hs
    cases out with
    | respond content =>
      refine ⟨⟨s.systemMessage, s.history ++ [p, content]⟩, ?_, rfl, [p, content], rfl⟩
      simp [GeminiInterfaceNW.generate_email, GeminiInterfaceNW.chat_message, hs]
    | raise e =>
      refine ⟨s, ?_, rfl, [], by simp⟩
      simp [GeminiInterfaceNW.generate_email, GeminiInterfaceNW.chat_message, hs]
  · intro g p out hn
    cases out with
    | respond content =>
      refine ⟨⟨emailSystemInstruction, [] ++ [p, content]⟩, ?_, rfl⟩
      simp [GeminiInterfaceNW.generate_email, GeminiInterfaceNW.chat_message,
        GeminiInterfaceNW.start_chat, hn]
    | raise e =>
      refine ⟨⟨emailSystemInstruction, []⟩, ?_, rfl⟩
      simp [GeminiInterfaceNW.generate_email, GeminiInterfaceNW.chat_message,
        GeminiInterfaceNW.start_chat, hn]

/-- Witness for the amended C3 theorem: the variant's first call creates the
session with the email system instruction. -/
theorem C3_witness :
    ∃ s2, ((GeminiInterfaceNW.init).generate_email "Write a meeting email"
        (.respond "Dear John")).1.chatSession = some s2 ∧
      s2.systemMessage = emailSystemInstruction :=
  C3_amended_session_handling.2.2 GeminiInterfaceNW.init "Write a meeting email"
    (.respond "Dear John") rfl

/-- C4: the structured email path fails (the `.format` call raises) exactly
when some template placeholder has no key in the request mapping, and the
exception is then a KeyError naming such a missing placeholder; with every
placeholder key present it never fails. -/
theorem C4_missing_key_iff (d : PromptData) :
    ((formatTemplate promptTemplate d).isOk = false ↔
      ∃ k ∈ templateFieldNames promptTemplate, d.lookup k = none) ∧
    ∀ e, formatTemplate promptTemplate d = .exn e →
      ∃ k, e = .keyError k ∧ k ∈ templateFieldNames promptTemplate ∧ d.lookup k = none :=
  ⟨formatTemplate_not_ok_iff promptTemplate d,
   fun e he => formatTemplate_exn promptTemplate d e he⟩

/-- Witness for C4: a mapping missing recipient_info makes the builder fail. -/
theorem C4_witness :
    (formatTemplate promptTemplate [("purpose", "x")]).isOk = false :=
  (C4_missing_key_iff [("purpose", "x")]).1.mpr ⟨"recipient_info", by decide, rfl⟩

/-- C5: the Prompt Builder is a pure function of its input: the email
instruction depends only on the values bound to the template's placeholder
names (so identical inputs give byte-identical output), and the paraphrase
instruction is likewise determined by the text and tone alone. -/
theorem C5_prompt_builder_deterministic (d₁ d₂ : PromptData)
    (h : ∀ k ∈ templateFieldNames promptTemplate, d₁.lookup k = d₂.lookup k)
    (t₁ t₂ tone₁ tone₂ : String) (ht : t₁ = t₂) (htone : tone₁ = tone₂) :
    formatTemplate promptTemplate d₁ = formatTemplate promptTemplate d₂ ∧
    paraphrasePrompt t₁ tone₁ = paraphrasePrompt t₂ tone₂ :=
  ⟨formatTemplate_ext promptTemplate d₁ d₂ h, by rw [ht, htone]⟩

/-- Witness for C5: two mappings agreeing on the placeholder names (one with
reordered entries and an extra unused key) build the same instruction. -/
theorem C5_witness :
    formatTemplate promptTemplate sampleData = formatTemplate promptTemplate sampleDataExtra ∧
    paraphrasePrompt "The project is late." "formal" =
      paraphrasePrompt "The project is late." "formal" :=
  C5_prompt_builder_deterministic sampleData sampleDataExtra (by decide)
    "The project is late." "The project is late." "formal" "formal" rfl rfl

/-- C6: with all placeholder keys present, the built instruction is exactly
the fixed literal sections interleaved, in template order, with the field
values (empty values leave their labeled slot empty — nothing is omitted or
reordered), and it contains each of the six required field values verbatim. -/
theorem C6_structured_sections (d : PromptData)
    (hok : ∀ k ∈ templateFieldNames promptTemplate, (d.lookup k).isSome = true) :
    formatTemplate promptTemplate d = .ok (renderParts promptTemplate d) ∧
    renderParts promptTemplate d =
      "Compose an email with the following characteristics:\n\n        *   **Purpose:** " ++
        (d.lookup "purpose").getD "" ++
      "\n        *   **Recipient:** " ++ (d.lookup "recipient_info").getD "" ++
      "\n        *   **Sender:** " ++ (d.lookup "sender_name").getD "" ++
      "\n        *   **Tone:** " ++ (d.lookup "tone").getD "" ++
      "\n        *   **Subject:** " ++ (d.lookup "subject").getD "" ++
      "\n        *   **Key Points/Content:**\n            " ++ (d.lookup "key_points").getD "" ++
      "\n        *   **Optional Considerations (when applicable):**\n            *   **Context:** " ++
        (d.lookup "context").getD "" ++
      "\n            *   **Actions Required:** " ++ (d.lookup "actions").getD "" ++
      "\n            *   **Attachments:** " ++ (d.lookup "attachments").getD "" ++
      "\n            *   **Desired Length:** " ++ (d.lookup "length").getD "" ++
      "\n\n        Write the email including this information, with an appropriate greeting and closing, considering the desired tone. \n        " ∧
    ∀ k ∈ requiredEmailFields,
      strContains (renderParts promptTemplate d) ((d.lookup k).getD "") := by
  have hall : ∀ k2 ∈ requiredEmailFields, TemplatePart.field k2 ∈ promptTemplate := by decide
  refine ⟨formatTemplate_ok promptTemplate d hok, ?_,
    fun k hk => renderParts_contains_field promptTemplate d k (hall k hk)⟩
  simp only [renderParts, promptTemplate, String.append_empty, String.append_assoc]

/-- Witness for C6 at the spec's example request. -/
theorem C6_witness :
    formatTemplate promptTemplate sampleData = .ok (renderParts promptTemplate sampleData) :=
  (C6_structured_sections sampleData (by decide)).1

/-- C7, counterexample: a non-empty custom tone string does not override the
enumerated selection verbatim: the code uses its stripped value, so a padded
custom tone is altered and a whitespace-only custom tone is ignored
entirely. -/
theorem C7_counterexample :
    (" persuasive " : String) ≠ "" ∧
    selectedTone " persuasive " "formal" ≠ " persuasive " ∧
    selectedTone " persuasive " "formal" = "persuasive" ∧
    (" " : String) ≠ "" ∧
    selectedTone " " "formal" = "formal" := by decide

/-- C7, amended: the paraphrase instruction embeds the literal input text,
contains the final tone token quoted exactly, and explicitly requests
Markdown output; a custom tone whose stripped value is non-empty overrides
the enumerated selection with that stripped value, and otherwise the
enumerated tone is used. -/
theorem C7_amended_paraphrase_instruction (text tone custom : String) :
    strContains (paraphrasePrompt text (selectedTone custom tone)) text ∧
    strContains (paraphrasePrompt text (selectedTone custom tone))
      ("'" ++ selectedTone custom tone ++ "'") ∧
    strContains (paraphrasePrompt text (selectedTone custom tone))
      "return it in Markdown format" ∧
    (pyStrip custom ≠ "" → selectedTone custom tone = pyStrip custom) ∧
    (pyStrip custom = "" → selectedTone custom tone = tone) := by
  refine ⟨paraphrasePrompt_contains_text _ _, paraphrasePrompt_contains_tone _ _,
    paraphrasePrompt_contains_markdown _ _, ?_, ?_⟩
  · intro hne
    simp [selectedTone, hne]
  · intro heq
    simp [selectedTone, heq]

/-- Witness for the amended C7 theorem at the spec's example inputs. -/
theorem C7_witness :
    strContains (paraphrasePrompt "The project is late." (selectedTone " persuasive " "formal"))
      "The project is late." ∧
    strContains (paraphrasePrompt "The project is late." (selectedTone " persuasive " "formal"))
      ("'" ++ selectedTone " persuasive " "formal" ++ "'") ∧
    strContains (paraphrasePrompt "The project is late." (selectedTone " persuasive " "formal"))
      "return it in Markdown format" ∧
    selectedTone " persuasive " "formal" = pyStrip " persuasive " := by
  have h := C7_amended_paraphrase_instruction "The project is late." "formal" " persuasive "
  exact ⟨h.1, h.2.1, h.2.2.1, h.2.2.2.1 (by decide)⟩

/-- C8, counterexample: constructing the client with the empty credential
does not fail — the constructor performs no check — and a generation attempt
on such a client succeeds, so the check is not at construction. -/
theorem C8_counterexample :
    (GeminiInterface.init "" "gemini-2.0-flash-exp").apiKey = "" ∧
    (GeminiInterface.init "" "gemini-2.0-flash-exp").generate_email sampleData
        (.respond ⟨[⟨"STOP"⟩], "Dear John, confirming availability."⟩)
      = .ok (some "Dear John, confirming availability.") := by decide

/-- C8, amended: the credential check happens once in main, before
construction: main reports the missing-credential configuration error and
returns without constructing the client exactly when the GEMINI_API_KEY
variable is absent or empty, so along main's path every constructed client
carries a non-empty credential. -/
theorem C8_amended_credential_check_in_main (env : List (String × String)) :
    (mainStartup env =
        .configError "API key not found in environment variables! Set GEMINI_API_KEY." ↔
      ((env.lookup "GEMINI_API_KEY").getD "") = "") ∧
    ∀ c, mainStartup env = .started c → c.apiKey ≠ "" := by
  by_cases hk : ((env.lookup "GEMINI_API_KEY").getD "") = ""
  · constructor
    · simp [mainStartup, hk]
    · intro c hc
      simp [mainStartup, hk] at hc
  · constructor
    · simp [mainStartup, hk]
    · intro c hc
      simp only [mainStartup, if_neg hk] at hc
      injection hc with h2
      rw [← h2]
      simpa [GeminiInterface.init] using hk

/-- Witness for the amended C8 theorem: an empty environment is rejected. -/
theorem C8_witness :
    mainStartup [] =
      .configError "API key not found in environment variables! Set GEMINI_API_KEY." :=
  (C8_amended_credential_check_in_main []).1.mpr rfl

/-- C9: after a reset of the client — re-construction, the only reset the
code provides, matching the spec's "implicitly on client re-construction" —
the next generation call runs on a fresh handle with empty history: no
previously exchanged message appears in it. -/
theorem C9_reset_yields_fresh_handle (apiKey modelName : String) (prior : List String)
    (d : PromptData) (out : SendOutcome) (c : Chat)
    (h : ((GeminiInterface.init apiKey modelName).generate_email_traced d out).chatCreated
      = some c) :
    c.history = [] ∧ ∀ m ∈ prior, m ∉ c.history := by
  have hc := generate_email_chatCreated_empty _ _ _ _ h
  refine ⟨hc, fun m _ hmem => ?_⟩
  rw [hc] at hmem
  cases hmem

/-- Witness for C9 with a concrete pre-reset history. -/
theorem C9_witness :
    (⟨[]⟩ : Chat).history = [] ∧
      ∀ m ∈ ["earlier prompt", "earlier reply"], m ∉ (⟨[]⟩ : Chat).history :=
  C9_reset_yields_fresh_handle "key" "gemini-2.0-flash-exp"
    ["earlier prompt", "earlier reply"] sampleData
    (.respond ⟨[⟨"STOP"⟩], "ok"⟩) ⟨[]⟩ (by decide)

/-- C10: `generate_email` returns the same None marker for a RECITATION-
finished response and for a raised StopCandidateException — the two outcomes
are equal, so a caller receiving None cannot tell them apart — while any
other exception escapes unwrapped as itself. -/
theorem C10_none_conflates_failures (g : GeminiInterface) (d : PromptData)
    (hok : ∀ k ∈ templateFieldNames promptTemplate, (d.lookup k).isSome = true)
    (r : Response) (cand : Candidate) (cs : List Candidate)
    (hc : r.candidates = cand :: cs) (hf : cand.finishReason = "RECITATION")
    (m : String) (e : PyExn) (he : e.isStopCandidate = false) :
    g.generate_email d (.respond r) = .ok none ∧
    g.generate_email d (.raise (.stopCandidate m)) = .ok none ∧
    g.generate_email d (.respond r) = g.generate_email d (.raise (.stopCandidate m)) ∧
    g.generate_email d (.raise e) = .exn e := by
  have h1 := generate_email_result_recitation g d hok r cand cs hc hf
  have h2 := generate_email_result_stop g d hok m
  exact ⟨h1, h2, by rw [h1, h2], generate_email_result_raise g d hok e he⟩

/-- Witness for C10 at concrete inputs. -/
theorem C10_witness :
    (GeminiInterface.init "key" "gemini-2.0-flash-exp").generate_email sampleData
        (.respond ⟨[⟨"RECITATION"⟩], "partial"⟩) = .ok none ∧
    (GeminiInterface.init "key" "gemini-2.0-flash-exp").generate_email sampleData
        (.raise (.stopCandidate "stopped")) = .ok none ∧
    (GeminiInterface.init "key" "gemini-2.0-flash-exp").generate_email sampleData
        (.respond ⟨[⟨"RECITATION"⟩], "partial"⟩) =
      (GeminiInterface.init "key" "gemini-2.0-flash-exp").generate_email sampleData
        (.raise (.stopCandidate "stopped")) ∧
    (GeminiInterface.init "key" "gemini-2.0-flash-exp").generate_email sampleData
        (.raise (.other "TimeoutError")) = .exn (.other "TimeoutError") :=
  C10_none_conflates_failures (GeminiInterface.init "key" "gemini-2.0-flash-exp")
    sampleData (by decide) ⟨[⟨"RECITATION"⟩], "partial"⟩ ⟨"RECITATION"⟩ [] rfl rfl
    "stopped" (.other "TimeoutError") rfl

end GenEmail
